import Mathlib

/-!
# Verification of the MQTT-to-SSE streaming bridge (StreamBridge)

Shallow embedding of the server-side bridge handler found in
`src/api/CCommonJS.js` (primary) and its variants in `src/unnamed/part_000`.
The handler accepts one streaming HTTP request, resolves query parameters,
writes an immediate `connecting` SSE frame, opens one MQTT client, starts a
25-second keepalive interval, and forwards MQTT callbacks (`connect`,
`message`, `error`, `close`, subscribe acknowledgement) to the HTTP response
as SSE frames; when the browser disconnects it clears the interval, force
closes the client, and ends the response.

Modelling conventions:
* Query parameters are `Option String` (absent vs present); JS destructuring
  defaults are applied by `resolve`.
* `Math.random().toString(16).slice(2)` is modelled as an opaque string
  argument `rand` supplied per session.
* The HTTP response is a flag `ended` plus a `wire` of SSE frames, one list
  element per frame.  Node discards writes made after `res.end()` (they raise
  ERR_STREAM_WRITE_AFTER_END and put no bytes on the stream), so `resWrite`
  on an ended response leaves the wire unchanged.
* A Buffer payload's `.toString()` UTF-8 decoding is the identity on the
  already-decoded text carried by a `message` event; the bridge performs no
  JSON parsing of payloads.
-/

namespace StreamBridge

/-- The query parameters the handler destructures from `req.query`;
`none` models an absent parameter. -/
structure Query where
  host : Option String
  port : Option String
  topic : Option String
  ssl : Option String
  user : Option String
  pass : Option String
  insecure : Option String
  keepalive : Option String
  clientId : Option String
deriving DecidableEq, Repr

/-- The request with every parameter omitted (`req.query = {}`). -/
def emptyQuery : Query :=
  ⟨none, none, none, none, none, none, none, none, none⟩

/-- Accumulate a decimal number over a character list; any non-digit makes
the whole parse fail. -/
def natOfDigits (l : List Char) : Option Nat :=
  l.foldl (fun acc c => acc.bind fun n =>
    if c.isDigit then some (n * 10 + (c.toNat - 48)) else none) (some 0)

/-- JS `Number(s)` on the fragment that can reach it here: the empty string
is `0`, an optionally-negated decimal integer literal is its value, and any
other string is `NaN` (`none`).  (JS `Number` also accepts floats, hex and
surrounding whitespace; none of those forms occurs in this bridge's
parameters or claims.) -/
def jsNumber? (s : String) : Option Int :=
  match s.data with
  | [] => some 0
  | '-' :: rest => if rest = [] then none else (natOfDigits rest).map fun n => -(n : Int)
  | l => (natOfDigits l).map fun n => (n : Int)

/-- JS `Number(s) || dflt`: both `0` and `NaN` are falsy, so either yields
the default. -/
def numberOrDefault (s : String) (dflt : Int) : Int :=
  match jsNumber? s with
  | some n => if n = 0 then dflt else n
  | none => dflt

/-- Parameters after JS destructuring defaults and numeric resolution
(`CCommonJS.js` lines 20-34). -/
structure Resolved where
  host : String
  port : Int
  topic : String
  isTLS : Bool
  user : String
  pass : String
  insecure : String
  keepaliveSecs : Int
  clientIdParam : String
deriving DecidableEq, Repr

/-- Destructuring defaults and derived values from `CCommonJS.js`:
`host = "broker.emqx.io"`, `port = ""`, `topic = "devices/#"`, `ssl = "0"`,
`user = pass = ""`, `insecure = "0"`, `keepalive = "30"`, `clientId = ""`;
`isTLS = (ssl === "1")`; `p = Number(port) || (isTLS ? 8883 : 1883)`. -/
def resolve (q : Query) : Resolved :=
  let ssl := q.ssl.getD "0"
  let isTLS := ssl = "1"
  { host := q.host.getD "broker.emqx.io"
    port := numberOrDefault (q.port.getD "") (if isTLS then 8883 else 1883)
    topic := q.topic.getD "devices/#"
    isTLS := isTLS
    user := q.user.getD ""
    pass := q.pass.getD ""
    insecure := q.insecure.getD "0"
    keepaliveSecs := numberOrDefault (q.keepalive.getD "30") 30
    clientIdParam := q.clientId.getD "" }

/-- The broker URL: `${isTLS ? "mqtts" : "mqtt"}://${host}:${p}`. -/
def brokerUrl (r : Resolved) : String :=
  (if r.isTLS then "mqtts" else "mqtt") ++ "://" ++ r.host ++ ":" ++ toString r.port

/-- The generated client identifier `sse-${Math.random().toString(16).slice(2)}`,
with the random hex tail supplied as `rand`. -/
def genClientId (rand : String) : String :=
  "sse-" ++ rand

/-- The option object handed to `mqtt.connect`; optional JS properties are
`Option`-valued (absent = `none`). -/
structure MqttOpts where
  protocolVersion : Nat
  clean : Bool
  keepaliveSecs : Int
  clientId : String
  username : Option String
  password : Option String
  rejectUnauthorized : Option Bool
deriving DecidableEq, Repr

/-- Option construction (`CCommonJS.js` lines 36-44): the `username` /
`password` properties are assigned only under JS truthiness of the strings
(`if (user) ...`), so the empty string leaves them absent; `clientId`
falls back to the generated id when the parameter is empty (falsy). -/
def mkOpts (r : Resolved) (rand : String) : MqttOpts :=
  { protocolVersion := 4
    clean := true
    keepaliveSecs := r.keepaliveSecs
    clientId := if r.clientIdParam = "" then genClientId rand else r.clientIdParam
    username := if r.user = "" then none else some r.user
    password := if r.pass = "" then none else some r.pass
    rejectUnauthorized := if r.isTLS ∧ r.insecure = "1" then some false else none }

/-! ## JSON serialization (the fragment of `JSON.stringify` used by `send`) -/

/-- Lowercase hex digit. -/
def hexDigit (n : Nat) : Char :=
  if n < 10 then Char.ofNat (48 + n) else Char.ofNat (87 + n)

/-- Four-digit lowercase hex, as in `JSON.stringify`'s `\u00XX` escapes. -/
def hex4 (n : Nat) : String :=
  String.mk [hexDigit ((n / 4096) % 16), hexDigit ((n / 256) % 16),
    hexDigit ((n / 16) % 16), hexDigit (n % 16)]

/-- Per-character JSON string escaping as performed by `JSON.stringify`. -/
def escapeChar (c : Char) : String :=
  if c = '"' then "\\\""
  else if c = '\\' then "\\\\"
  else if c = '\n' then "\\n"
  else if c = '\r' then "\\r"
  else if c = '\t' then "\\t"
  else if c = '\x08' then "\\b"
  else if c = '\x0c' then "\\f"
  else if c.toNat < 32 then "\\u" ++ hex4 c.toNat
  else String.singleton c

/-- JSON string escaping applied to every character. -/
def jsonEscape (s : String) : String :=
  String.join (s.data.map escapeChar)

/-- A JSON string literal. -/
def jsonStr (s : String) : String :=
  "\"" ++ jsonEscape s ++ "\""

/-- `JSON.stringify` of an object literal whose field values are already
serialized; field order is JS insertion order, with no whitespace. -/
def jsonObj (fields : List (String × String)) : String :=
  "\x7b" ++ String.intercalate "," (fields.map fun f => jsonStr f.1 ++ ":" ++ f.2) ++ "\x7d"

/-! ## SSE frames -/

/-- The `send` helper (`CCommonJS.js` lines 46-49): an optional
`event: <name>` line followed by `data: <json>` and a blank line.  One wire
element is one whole frame (the handler's two `res.write` calls for a named
frame are adjacent on the byte stream with nothing in between, since the
runtime is single-threaded per callback). -/
def sendFrame (event : Option String) (json : String) : String :=
  (match event with
   | some e => "event: " ++ e ++ "\n"
   | none => "") ++ "data: " ++ json ++ "\n\n"

/-- The immediate diagnostic frame `send({ connecting: url, topic })`. -/
def connectingFrame (r : Resolved) : String :=
  sendFrame none (jsonObj [("connecting", jsonStr (brokerUrl r)), ("topic", jsonStr r.topic)])

/-- The `send({ connected: url })` frame emitted on MQTT `connect`. -/
def connectedFrame (u : String) : String :=
  sendFrame none (jsonObj [("connected", jsonStr u)])

/-- The `send({ subscribed: topic })` frame on subscribe success. -/
def subscribedFrame (t : String) : String :=
  sendFrame none (jsonObj [("subscribed", jsonStr t)])

/-- The named error frame `send({ error: "subscribe: " + String(err) }, "error")`
on subscribe failure; `errStr` stands for `String(err)`. -/
def subscribeErrorFrame (errStr : String) : String :=
  sendFrame (some "error") (jsonObj [("error", jsonStr ("subscribe: " ++ errStr))])

/-- The default (unnamed) telemetry frame
`send({ topic: t, payload: payload.toString() })` for one MQTT message. -/
def telemetryFrame (t payload : String) : String :=
  sendFrame none (jsonObj [("topic", jsonStr t), ("payload", jsonStr payload)])

/-- The named error frame `send({ error: e?.message || String(e) }, "error")`;
`msg` stands for the resolved `e?.message || String(e)` string. -/
def mqttErrorFrame (msg : String) : String :=
  sendFrame (some "error") (jsonObj [("error", jsonStr msg)])

/-- The named info frame `send({ info: "mqtt close" }, "info")` emitted when
the MQTT client itself reports close. -/
def mqttCloseFrame : String :=
  sendFrame (some "info") (jsonObj [("info", jsonStr "mqtt close")])

/-- The keepalive comment frame written by the interval callback:
`res.write(": ping " + Date.now() + "\n\n")`. -/
def pingFrame (nowMs : Nat) : String :=
  ": ping " ++ toString nowMs ++ "\n\n"

/-- The keepalive interval period passed to `setInterval` (milliseconds). -/
def kaIntervalMs : Nat := 25000

/-! ## The HTTP response and the session state -/

/-- The HTTP response: whether `res.end()` has run, and the SSE frames that
reached the stream.  Node discards writes after end (they error with
ERR_STREAM_WRITE_AFTER_END and put no bytes on the response). -/
structure ResState where
  ended : Bool
  wire : List String
deriving DecidableEq, Repr

/-- `res.write` of one frame: dropped once the response has ended. -/
def resWrite (r : ResState) (s : String) : ResState :=
  if r.ended then r else { r with wire := r.wire ++ [s] }

/-- One BridgeSession after a successful construction: the response, whether
the keepalive interval is live, whether `client.end(true)` has been called,
the subscribe requests issued (topic, QoS), and the resolved url/topic the
handler closed over. -/
structure Session where
  res : ResState
  kaActive : Bool
  clientEnded : Bool
  subscribes : List (String × Nat)
  url : String
  topic : String
deriving DecidableEq, Repr

/-! ## Teardown (the `req.on("close")` handler body) -/

/-- The three teardown steps of the close handler: `clearInterval(ka)`,
`client.end(true)` (force close), `res.end()`. -/
inductive Action where
  | clearKa
  | clientEndForce
  | resEnd
deriving DecidableEq, Repr

/-- One statement of the close handler body: the step and whether the source
wraps it in `try { ... } catch {}`. -/
structure GuardedAction where
  act : Action
  guarded : Bool
deriving DecidableEq, Repr

/-- The close handler body (`CCommonJS.js` lines 79-83), in source order:
`clearInterval(ka);` unguarded, then `try { client.end(true) } catch {}`,
then `try { res.end() } catch {}`. -/
def closeHandlerBody : List GuardedAction :=
  [⟨Action.clearKa, false⟩, ⟨Action.clientEndForce, true⟩, ⟨Action.resEnd, true⟩]

/-- The state effect of one teardown step when it completes without
throwing. -/
def applyAction (s : Session) : Action → Session
  | Action.clearKa => { s with kaActive := false }
  | Action.clientEndForce => { s with clientEnded := true }
  | Action.resEnd => { s with res := { s.res with ended := true } }

/-- Run a handler body under a throw oracle `thr` (which steps raise): a
throwing step has no state effect; a `try`-guarded throw is swallowed and
execution continues; an unguarded throw aborts the handler.  Returns the
final state and the trace of steps that were invoked. -/
def execClose (thr : Action → Bool) : Session → List GuardedAction → Session × List Action
  | s, [] => (s, [])
  | s, g :: rest =>
      if thr g.act then
        if g.guarded then
          let r := execClose thr s rest
          (r.1, g.act :: r.2)
        else (s, [g.act])
      else
        let r := execClose thr (applyAction s g.act) rest
        (r.1, g.act :: r.2)

/-! ## Event step function -/

/-- The callbacks that can fire on a live session: the MQTT client's
`connect`, the subscribe acknowledgement, `message`, `error` and `close`
events, a keepalive interval tick, and the HTTP request's `close` signal.
`subAckErr = some e` carries `String(err)`; `mqttError` carries the resolved
`e?.message || String(e)`. -/
inductive BridgeEvent where
  | connect
  | subAck (err : Option String)
  | message (topic payload : String)
  | mqttError (msg : String)
  | mqttClose
  | tick (nowMs : Nat)
  | reqClose
deriving DecidableEq, Repr

/-- One callback dispatch, translated clause by clause from
`CCommonJS.js` lines 56-83. -/
def step (s : Session) : BridgeEvent → Session
  | BridgeEvent.connect =>
      let s := { s with res := resWrite s.res (connectedFrame s.url) }
      { s with subscribes := s.subscribes ++ [(s.topic, 0)] }
  | BridgeEvent.subAck none =>
      { s with res := resWrite s.res (subscribedFrame s.topic) }
  | BridgeEvent.subAck (some e) =>
      { s with res := resWrite s.res (subscribeErrorFrame e) }
  | BridgeEvent.message t p =>
      { s with res := resWrite s.res (telemetryFrame t p) }
  | BridgeEvent.mqttError m =>
      { s with res := resWrite s.res (mqttErrorFrame m) }
  | BridgeEvent.mqttClose =>
      { s with res := resWrite s.res mqttCloseFrame }
  | BridgeEvent.tick now =>
      if s.kaActive then { s with res := resWrite s.res (pingFrame now) } else s
  | BridgeEvent.reqClose =>
      (execClose (fun _ => false) s closeHandlerBody).1

/-- Dispatch a sequence of callbacks in order. -/
def runEvents (s : Session) (es : List BridgeEvent) : Session :=
  es.foldl step s

/-! ## Handler initialisation -/

/-- The statements of the handler body before any callback fires, in source
order (`CCommonJS.js` lines 9-83). -/
inductive InitStep where
  | writeHead
  | resolveParams
  | sendConnecting
  | mqttConnect
  | startKaInterval
  | registerHandlers
deriving DecidableEq, Repr

/-- Source order of the handler's initialisation statements. -/
def initOrder : List InitStep :=
  [InitStep.writeHead, InitStep.resolveParams, InitStep.sendConnecting,
   InitStep.mqttConnect, InitStep.startKaInterval, InitStep.registerHandlers]

/-- The session state right after the handler body runs with a successful
`mqtt.connect` construction: the `connecting` frame is the only frame
written, the keepalive interval is live, nothing is ended, no subscribe has
been issued yet. -/
def initSession (q : Query) : Session :=
  let r := resolve q
  { res := { ended := false, wire := [connectingFrame r] }
    kaActive := true
    clientEnded := false
    subscribes := []
    url := brokerUrl r
    topic := r.topic }

/-- Outcome of running the `CCommonJS.js` handler body when `mqtt.connect`
may throw (`throwMsg = some m` models a construction exception with message
`m`).  The call is NOT guarded there: the exception escapes the handler
after the `connecting` frame was already written and before the keepalive
interval starts; no diagnostic is emitted and the response is not ended.
Returns the state and whether an exception escaped. -/
def initCCommon (q : Query) (throwMsg : Option String) : Session × Bool :=
  let r := resolve q
  match throwMsg with
  | some _ =>
      ({ res := { ended := false, wire := [connectingFrame r] }
         kaActive := false
         clientEnded := false
         subscribes := []
         url := brokerUrl r
         topic := r.topic }, true)
  | none => (initSession q, false)

/-- The named `diag` error frame of the guarded variant in
`src/unnamed/part_000`: `send({ error: "client create: " + m }, "diag")`. -/
def diagCreateErrorFrame (m : String) : String :=
  sendFrame (some "diag") (jsonObj [("error", jsonStr ("client create: " ++ m))])

/-- The guarded CommonJS variant in `src/unnamed/part_000` (lines 133-139):
`mqtt.connect` sits in `try { ... } catch (e) { send({error: "client create:
..."}, "diag"); return; }`.  On a construction throw the handler emits the
`diag` error frame and returns: no interval is started, no callbacks are
registered, and `res.end()` is never called, so the response stays open. -/
def initGuarded (q : Query) (throwMsg : Option String) : Session :=
  let r := resolve q
  match throwMsg with
  | some m =>
      { res := { ended := false, wire := [connectingFrame r, diagCreateErrorFrame m] }
        kaActive := false
        clientEnded := false
        subscribes := []
        url := brokerUrl r
        topic := r.topic }
  | none => initSession q

/-! ## Handler registration and the closed state -/

/-- A session together with whether the MQTT client and request callbacks
were ever registered.  In every variant the `client.on(...)` and
`req.on("close")` registrations come only after a successful `mqtt.connect`
construction, so a construction failure leaves the handler with no
registered callbacks at all (and no keepalive interval). -/
structure LiveSession where
  sess : Session
  handlers : Bool
deriving DecidableEq, Repr

/-- Deliver one event to a live session: with no registered callbacks there
is nothing to run and the state is untouched; otherwise the registered
callback dispatches as `step`. -/
def dispatch (ls : LiveSession) (e : BridgeEvent) : LiveSession :=
  if ls.handlers then { ls with sess := step ls.sess e } else ls

/-- Deliver a sequence of events in order. -/
def dispatchEvents (ls : LiveSession) (es : List BridgeEvent) : LiveSession :=
  es.foldl dispatch ls

/-- The closed state of a BridgeSession: entered when the browser-disconnect
handler has ended the response, or when a fatal construction failure left
the handler without registered callbacks. -/
def closedSession (ls : LiveSession) : Prop :=
  ls.sess.res.ended = true ∨ ls.handlers = false

/-- The live session after a successful handler run: callbacks registered. -/
def liveInit (q : Query) : LiveSession :=
  { sess := initSession q, handlers := true }

/-- The live session produced by the guarded variant in
`src/unnamed/part_000`: on a construction throw the handler returns before
any callback registration. -/
def liveInitGuarded (q : Query) (throwMsg : Option String) : LiveSession :=
  { sess := initGuarded q throwMsg, handlers := throwMsg.isNone }

/-- The live session produced by `CCommonJS.js` plus the escaped-exception
flag: on a construction throw the exception escapes before any callback
registration. -/
def liveInitCCommon (q : Query) (throwMsg : Option String) : LiveSession × Bool :=
  ({ sess := (initCCommon q throwMsg).1, handlers := throwMsg.isNone },
   (initCCommon q throwMsg).2)

end StreamBridge

namespace StreamBridge

/-! ## Helper lemmas -/

/-- Once the response has ended, a single callback dispatch neither adds a
frame to the wire nor reopens the response. -/
lemma step_wire_of_ended (s : Session) (e : BridgeEvent) (h : s.res.ended = true) :
    (step s e).res.wire = s.res.wire ∧ (step s e).res.ended = true := by
  cases e with
  | connect => simp [step, resWrite, h]
  | subAck err => cases err <;> simp [step, resWrite, h]
  | message t p => simp [step, resWrite, h]
  | mqttError m => simp [step, resWrite, h]
  | mqttClose => simp [step, resWrite, h]
  | tick now =>
      by_cases hk : s.kaActive <;> simp [step, resWrite, h, hk]
  | reqClose =>
      simp [step, execClose, closeHandlerBody, applyAction]

/-- The generated client id is never the empty string. -/
lemma genClientId_ne_empty (r : String) : genClientId r ≠ "" := by
  intro h
  have hl := congrArg String.length h
  simp [genClientId, String.length_append] at hl
  exact (by decide : "sse-".length ≠ 0) hl.1

/-- Distinct random draws give distinct generated client ids. -/
lemma genClientId_inj (r1 r2 : String) (h : r1 ≠ r2) :
    genClientId r1 ≠ genClientId r2 := by
  intro hc
  apply h
  have hd := congrArg String.data hc
  simp only [genClientId, String.data_append] at hd
  exact String.ext (List.append_cancel_left hd)

/-- One event delivered to a closed session writes nothing and leaves the
session closed: with no registered callbacks the delivery is a no-op, and
with an ended response every write is discarded. -/
lemma dispatch_closed (ls : LiveSession) (e : BridgeEvent)
    (h : closedSession ls) :
    (dispatch ls e).sess.res.wire = ls.sess.res.wire ∧
    closedSession (dispatch ls e) := by
  cases hh : ls.handlers with
  | false =>
      refine ⟨?_, Or.inr ?_⟩ <;> simp [dispatch, hh]
  | true =>
      have hend : ls.sess.res.ended = true := by
        rcases h with h | h
        · exact h
        · simp [h] at hh
      have hs := step_wire_of_ended ls.sess e hend
      refine ⟨?_, Or.inl ?_⟩ <;> simp [dispatch, hh, hs.1, hs.2]

/-- A whole event sequence delivered to a closed session writes nothing and
leaves the session closed. -/
lemma dispatchEvents_closed (es : List BridgeEvent) :
    ∀ (ls : LiveSession), closedSession ls →
      (dispatchEvents ls es).sess.res.wire = ls.sess.res.wire ∧
      closedSession (dispatchEvents ls es) := by
  induction es with
  | nil => intro ls h; exact ⟨rfl, h⟩
  | cons e rest ih =>
      intro ls h
      have hd := dispatch_closed ls e h
      have hr := ih (dispatch ls e) hd.2
      refine ⟨?_, hr.2⟩
      show (dispatchEvents (dispatch ls e) rest).sess.res.wire = ls.sess.res.wire
      rw [hr.1, hd.1]

/-- Processing a run of MQTT message callbacks on an open response appends
exactly one telemetry frame per message, in delivery order, and leaves the
response open. -/
lemma telemetry_run (msgs : List (String × String)) :
    ∀ (s : Session), s.res.ended = false →
      (runEvents s (msgs.map fun m => BridgeEvent.message m.1 m.2)).res.wire =
        s.res.wire ++ msgs.map (fun m => telemetryFrame m.1 m.2) ∧
      (runEvents s (msgs.map fun m => BridgeEvent.message m.1 m.2)).res.ended = false := by
  induction msgs with
  | nil => intro s h; simp [runEvents, h]
  | cons m rest ih =>
      intro s h
      have hstep : (step s (BridgeEvent.message m.1 m.2)).res.wire = s.res.wire ++ [telemetryFrame m.1 m.2] ∧
          (step s (BridgeEvent.message m.1 m.2)).res.ended = false := by
        simp [step, resWrite, h]
      have := ih (step s (BridgeEvent.message m.1 m.2)) hstep.2
      constructor
      · calc (runEvents (step s (BridgeEvent.message m.1 m.2))
              (rest.map fun m => BridgeEvent.message m.1 m.2)).res.wire
            = (step s (BridgeEvent.message m.1 m.2)).res.wire ++
                rest.map (fun m => telemetryFrame m.1 m.2) := by
              simpa [runEvents] using this.1
          _ = s.res.wire ++ (telemetryFrame m.1 m.2 :: rest.map (fun m => telemetryFrame m.1 m.2)) := by
              rw [hstep.1, List.append_assoc]; rfl
          _ = s.res.wire ++ (m :: rest).map (fun m => telemetryFrame m.1 m.2) := rfl
      · simpa [runEvents] using this.2

end StreamBridge

namespace StreamBridge

/-! ## Claim theorems -/

/-- C1: when the inbound HTTP request emits its close signal, the teardown
sequence runs to completion in source order — keepalive interval cleared,
then `client.end(true)` (force close), then `res.end()` — and all three
steps are invoked even when `client.end` or `res.end` throws, because those
two are wrapped in `try { } catch { }`; `clearInterval` cannot throw in JS,
recorded by the hypothesis on the throw oracle.  After the handler runs, the
timer is inactive, the client is ended and the response is ended. -/
theorem teardown_order_and_resilience (s : Session) (thr : Action → Bool)
    (h : thr Action.clearKa = false) :
    (execClose thr s closeHandlerBody).2 =
      [Action.clearKa, Action.clientEndForce, Action.resEnd] ∧
    (step s BridgeEvent.reqClose).kaActive = false ∧
    (step s BridgeEvent.reqClose).clientEnded = true ∧
    (step s BridgeEvent.reqClose).res.ended = true := by
  refine ⟨?_, ?_, ?_, ?_⟩
  · cases hc : thr Action.clientEndForce <;> cases hr : thr Action.resEnd <;>
      simp [execClose, closeHandlerBody, h, hc, hr, applyAction]
  all_goals simp [step, execClose, closeHandlerBody, applyAction]

/-- Witness for C1: concrete session and a throw oracle on which
`client.end(true)` throws. -/
theorem teardown_order_and_resilience_witness :
    ((fun a => decide (a = Action.clientEndForce)) Action.clearKa = false) ∧
    ((execClose (fun a => decide (a = Action.clientEndForce))
        (initSession emptyQuery) closeHandlerBody).2 =
      [Action.clearKa, Action.clientEndForce, Action.resEnd] ∧
    (step (initSession emptyQuery) BridgeEvent.reqClose).kaActive = false ∧
    (step (initSession emptyQuery) BridgeEvent.reqClose).clientEnded = true ∧
    (step (initSession emptyQuery) BridgeEvent.reqClose).res.ended = true) :=
  ⟨by decide, teardown_order_and_resilience (initSession emptyQuery)
    (fun a => decide (a = Action.clientEndForce)) (by decide)⟩

/-- C2: the closed state is terminal.  Both in-handler entry paths land in
the closed state — the browser-disconnect handler ends the response, and a
fatal construction failure (guarded variant or `CCommonJS.js`) leaves no
callbacks registered — and from any closed state no further event delivery
of any kind (diagnostic, telemetry, or keepalive tick) writes an SSE frame
to the HTTP response, and the session stays closed. -/
theorem closed_state_terminal (ls : LiveSession) (es : List BridgeEvent)
    (h : closedSession ls) :
    ((dispatchEvents ls es).sess.res.wire = ls.sess.res.wire ∧
     closedSession (dispatchEvents ls es)) ∧
    (∀ q : Query, closedSession (dispatch (liveInit q) BridgeEvent.reqClose)) ∧
    (∀ (q : Query) (m : String), closedSession (liveInitGuarded q (some m))) ∧
    (∀ (q : Query) (m : String), closedSession (liveInitCCommon q (some m)).1) := by
  refine ⟨dispatchEvents_closed es ls h, ?_, ?_, ?_⟩
  · intro q
    refine Or.inl ?_
    simp [dispatch, liveInit, step, execClose, closeHandlerBody, applyAction]
  · intro q m
    exact Or.inr rfl
  · intro q m
    exact Or.inr rfl

/-- Witness for C2: a session whose construction failed (guarded variant,
message "boom") is closed, and delivering MQTT close/error callbacks, a
timer tick and a request close to it writes nothing and leaves it closed. -/
theorem closed_state_terminal_witness :
    closedSession (liveInitGuarded emptyQuery (some "boom")) ∧
    (((dispatchEvents (liveInitGuarded emptyQuery (some "boom"))
        [BridgeEvent.mqttClose, BridgeEvent.mqttError "oops", BridgeEvent.tick 25000,
         BridgeEvent.reqClose]).sess.res.wire =
        (liveInitGuarded emptyQuery (some "boom")).sess.res.wire ∧
      closedSession (dispatchEvents (liveInitGuarded emptyQuery (some "boom"))
        [BridgeEvent.mqttClose, BridgeEvent.mqttError "oops", BridgeEvent.tick 25000,
         BridgeEvent.reqClose])) ∧
    (∀ q : Query, closedSession (dispatch (liveInit q) BridgeEvent.reqClose)) ∧
    (∀ (q : Query) (m : String), closedSession (liveInitGuarded q (some m))) ∧
    (∀ (q : Query) (m : String), closedSession (liveInitCCommon q (some m)).1)) :=
  ⟨Or.inr rfl, closed_state_terminal (liveInitGuarded emptyQuery (some "boom"))
    [BridgeEvent.mqttClose, BridgeEvent.mqttError "oops", BridgeEvent.tick 25000,
     BridgeEvent.reqClose] (Or.inr rfl)⟩

/-- C3 counterexample: with a concrete construction failure (message
"Invalid URL"), the guarded variant in `src/unnamed/part_000` emits the
`diag` error frame but leaves the response un-ended (`res.end()` is never
called — the handler just returns), and in `src/api/CCommonJS.js` the
unguarded exception escapes with no diagnostic frame at all; either way the
claim that the stream is closed after a construction failure is false. -/
theorem construction_failure_response_not_ended_cex :
    (initGuarded emptyQuery (some "Invalid URL")).res.wire =
      [connectingFrame (resolve emptyQuery), diagCreateErrorFrame "Invalid URL"] ∧
    (initGuarded emptyQuery (some "Invalid URL")).res.ended = false ∧
    (initCCommon emptyQuery (some "Invalid URL")).2 = true ∧
    (initCCommon emptyQuery (some "Invalid URL")).1.res.wire =
      [connectingFrame (resolve emptyQuery)] ∧
    (initCCommon emptyQuery (some "Invalid URL")).1.res.ended = false :=
  ⟨rfl, rfl, rfl, rfl, rfl⟩

/-- C3 (amended): on an MQTT client construction throw, the guarded variant
(`src/unnamed/part_000`) emits one `diag` error event after the `connecting`
frame and stops — no keepalive interval is started and the HTTP response is
left open, not ended; in `src/api/CCommonJS.js` the construction is
unguarded, so the exception escapes the handler with no diagnostic emitted
and the response likewise not ended by the bridge. -/
theorem construction_failure_behaviour (q : Query) (m : String) :
    (initGuarded q (some m)).res.wire =
      [connectingFrame (resolve q), diagCreateErrorFrame m] ∧
    (initGuarded q (some m)).res.ended = false ∧
    (initGuarded q (some m)).kaActive = false ∧
    (initCCommon q (some m)).2 = true ∧
    (initCCommon q (some m)).1.res.wire = [connectingFrame (resolve q)] ∧
    (initCCommon q (some m)).1.res.ended = false :=
  ⟨rfl, rfl, rfl, rfl, rfl, rfl⟩

/-- C4 counterexample: unconditional distinctness of generated client ids
across two concurrent sessions fails — `Math.random` carries no distinctness
guarantee, and two sessions whose draws coincide (here both "0") receive the
same generated id. -/
theorem generated_clientId_collision_cex :
    ¬ (∀ (draw : Nat → String) (i j : Nat), i ≠ j →
        (mkOpts (resolve emptyQuery) (draw i)).clientId ≠
          (mkOpts (resolve emptyQuery) (draw j)).clientId) :=
  fun h => h (fun _ => "0") 0 1 (by decide) rfl

/-- C4 (amended): omitting `port` resolves to 1883 when `ssl` is "0" or
absent and to 8883 when `ssl` is "1"; omitting `topic` resolves to
`devices/#`; omitting `clientId` uses the generated identifier, which is
never empty and is distinct between two sessions whenever their underlying
random draws differ. -/
theorem parameter_defaulting (q : Query) (r r1 r2 : String) :
    (q.port = none → (q.ssl = none ∨ q.ssl = some "0") → (resolve q).port = 1883) ∧
    (q.port = none → q.ssl = some "1" → (resolve q).port = 8883) ∧
    (q.topic = none → (resolve q).topic = "devices/#") ∧
    (q.clientId = none → (mkOpts (resolve q) r).clientId = genClientId r) ∧
    genClientId r ≠ "" ∧
    (r1 ≠ r2 → genClientId r1 ≠ genClientId r2) := by
  refine ⟨?_, ?_, ?_, ?_, genClientId_ne_empty r, genClientId_inj r1 r2⟩
  · intro hp hs
    rcases hs with hs | hs <;> simp [resolve, hp, hs, numberOrDefault] <;> rfl
  · intro hp hs
    simp [resolve, hp, hs, numberOrDefault]
    rfl
  · intro ht
    simp [resolve, ht]
  · intro hc
    simp [mkOpts, resolve, hc]

/-- Witness for C4 (amended): the defaults at the empty query, and two
distinct draws giving distinct ids. -/
theorem parameter_defaulting_witness :
    (resolve emptyQuery).port = 1883 ∧
    (resolve { emptyQuery with ssl := some "1" }).port = 8883 ∧
    (resolve emptyQuery).topic = "devices/#" ∧
    (mkOpts (resolve emptyQuery) "1a2b3c").clientId = genClientId "1a2b3c" ∧
    genClientId "1a2b3c" ≠ "" ∧
    genClientId "1a2b3c" ≠ genClientId "d4e5" := by
  have h1 := parameter_defaulting emptyQuery "1a2b3c" "1a2b3c" "d4e5"
  have h2 := parameter_defaulting { emptyQuery with ssl := some "1" } "1a2b3c" "1a2b3c" "d4e5"
  exact ⟨h1.1 rfl (Or.inl rfl), h2.2.1 rfl rfl, h1.2.2.1 rfl, h1.2.2.2.1 rfl,
    h1.2.2.2.2.1, h1.2.2.2.2.2 (by decide)⟩

/-- C5: each MQTT message delivered to the subscription produces exactly one
default (unnamed) SSE frame — `data:` followed by the JSON object with the
arrival topic and the payload text, then a blank line — with no JSON parsing
of the payload, and a run of messages puts its frames on the wire in
delivery order. -/
theorem telemetry_frames_in_order (s : Session) (msgs : List (String × String))
    (h : s.res.ended = false) :
    (runEvents s (msgs.map fun m => BridgeEvent.message m.1 m.2)).res.wire =
      s.res.wire ++ msgs.map (fun m => telemetryFrame m.1 m.2) ∧
    (∀ t p : String, telemetryFrame t p =
      "data: " ++ jsonObj [("topic", jsonStr t), ("payload", jsonStr p)] ++ "\n\n") :=
  ⟨(telemetry_run msgs s h).1, fun _ _ => rfl⟩

/-- Witness for C5: two concrete messages forwarded in order on a fresh
session. -/
theorem telemetry_frames_in_order_witness :
    (initSession emptyQuery).res.ended = false ∧
    ((runEvents (initSession emptyQuery)
        (([("devices/x/telemetry", "p1"), ("devices/y", "p2")] : List (String × String)).map
          fun m => BridgeEvent.message m.1 m.2)).res.wire =
      (initSession emptyQuery).res.wire ++
        ([("devices/x/telemetry", "p1"), ("devices/y", "p2")] : List (String × String)).map
          (fun m => telemetryFrame m.1 m.2) ∧
    (∀ t p : String, telemetryFrame t p =
      "data: " ++ jsonObj [("topic", jsonStr t), ("payload", jsonStr p)] ++ "\n\n")) :=
  ⟨rfl, telemetry_frames_in_order (initSession emptyQuery)
    [("devices/x/telemetry", "p1"), ("devices/y", "p2")] rfl⟩

/-- C6: an MQTT client error produces exactly one named `error` SSE frame
carrying the error message, and the HTTP response remains open afterwards. -/
theorem mqtt_error_keeps_response_open (s : Session) (m : String)
    (h : s.res.ended = false) :
    (step s (BridgeEvent.mqttError m)).res.wire = s.res.wire ++ [mqttErrorFrame m] ∧
    (step s (BridgeEvent.mqttError m)).res.ended = false ∧
    mqttErrorFrame m =
      "event: error\n" ++ "data: " ++ jsonObj [("error", jsonStr m)] ++ "\n\n" := by
  refine ⟨?_, ?_, rfl⟩ <;> simp [step, resWrite, h]

/-- Witness for C6: the "Connection refused" scenario on a fresh session. -/
theorem mqtt_error_keeps_response_open_witness :
    (initSession emptyQuery).res.ended = false ∧
    ((step (initSession emptyQuery) (BridgeEvent.mqttError "Connection refused")).res.wire =
      (initSession emptyQuery).res.wire ++ [mqttErrorFrame "Connection refused"] ∧
    (step (initSession emptyQuery) (BridgeEvent.mqttError "Connection refused")).res.ended = false ∧
    mqttErrorFrame "Connection refused" =
      "event: error\n" ++ "data: " ++ jsonObj [("error", jsonStr "Connection refused")] ++ "\n\n") :=
  ⟨rfl, mqtt_error_keeps_response_open (initSession emptyQuery) "Connection refused" rfl⟩

/-- C7: on the MQTT `connect` callback the bridge emits exactly one
`connected` diagnostic frame and issues exactly one subscribe request for
the requested topic at QoS 0; the subscribe acknowledgement emits exactly
one further frame — a `subscribed` confirmation carrying the topic on
success, a named `error` frame on failure. -/
theorem connect_subscribe_diagnostics (s : Session) (e : String)
    (h : s.res.ended = false) :
    (step s BridgeEvent.connect).res.wire = s.res.wire ++ [connectedFrame s.url] ∧
    (step s BridgeEvent.connect).subscribes = s.subscribes ++ [(s.topic, 0)] ∧
    (step s (BridgeEvent.subAck none)).res.wire = s.res.wire ++ [subscribedFrame s.topic] ∧
    (step s (BridgeEvent.subAck (some e))).res.wire = s.res.wire ++ [subscribeErrorFrame e] := by
  refine ⟨?_, ?_, ?_, ?_⟩ <;> simp [step, resWrite, h]

/-- Witness for C7: connect and both acknowledgement outcomes on a fresh
session. -/
theorem connect_subscribe_diagnostics_witness :
    (initSession emptyQuery).res.ended = false ∧
    ((step (initSession emptyQuery) BridgeEvent.connect).res.wire =
      (initSession emptyQuery).res.wire ++ [connectedFrame (initSession emptyQuery).url] ∧
    (step (initSession emptyQuery) BridgeEvent.connect).subscribes =
      (initSession emptyQuery).subscribes ++ [((initSession emptyQuery).topic, 0)] ∧
    (step (initSession emptyQuery) (BridgeEvent.subAck none)).res.wire =
      (initSession emptyQuery).res.wire ++ [subscribedFrame (initSession emptyQuery).topic] ∧
    (step (initSession emptyQuery) (BridgeEvent.subAck (some "Error: not authorized"))).res.wire =
      (initSession emptyQuery).res.wire ++ [subscribeErrorFrame "Error: not authorized"]) :=
  ⟨rfl, connect_subscribe_diagnostics (initSession emptyQuery) "Error: not authorized" rfl⟩

/-- C8: the `connecting` diagnostic frame is the first and only frame on the
wire when the handler body finishes, the `send` of that frame precedes the
`mqtt.connect` call in the handler's statement order, and for
`host=test.broker.local&topic=devices/x/telemetry&ssl=0` its content is the
JSON object with `connecting` = `mqtt://test.broker.local:1883` and `topic`
= `devices/x/telemetry`. -/
theorem connecting_frame_first :
    (∀ q : Query, (initSession q).res.wire = [connectingFrame (resolve q)]) ∧
    initOrder.indexOf InitStep.sendConnecting < initOrder.indexOf InitStep.mqttConnect ∧
    connectingFrame (resolve { emptyQuery with host := some "test.broker.local", topic := some "devices/x/telemetry", ssl := some "0" }) =
      "data: \x7b\"connecting\":\"mqtt://test.broker.local:1883\",\"topic\":\"devices/x/telemetry\"\x7d\n\n" :=
  ⟨fun _ => rfl, by decide, by decide⟩

/-- C9: the keepalive interval period is 25000 ms; while the session is open
each interval tick writes exactly the comment frame `: ping <unix-ms>`
followed by a blank line, regardless of MQTT traffic; and once the browser
disconnect has been handled the interval is cleared, so a tick writes
nothing. -/
theorem keepalive_cadence_and_silence (s : Session) (now later : Nat)
    (hk : s.kaActive = true) (h : s.res.ended = false) :
    kaIntervalMs = 25000 ∧
    (step s (BridgeEvent.tick now)).res.wire = s.res.wire ++ [pingFrame now] ∧
    pingFrame now = ": ping " ++ toString now ++ "\n\n" ∧
    (step (step s BridgeEvent.reqClose) (BridgeEvent.tick later)).res.wire =
      (step s BridgeEvent.reqClose).res.wire ∧
    (step s BridgeEvent.reqClose).kaActive = false := by
  refine ⟨rfl, ?_, rfl, ?_, ?_⟩
  · simp [step, resWrite, hk, h]
  · simp [step, execClose, closeHandlerBody, applyAction, resWrite]
  · simp [step, execClose, closeHandlerBody, applyAction]

/-- Witness for C9: a tick at 25000 ms on a fresh session, and silence of a
tick after the disconnect is handled. -/
theorem keepalive_cadence_and_silence_witness :
    (initSession emptyQuery).kaActive = true ∧
    (initSession emptyQuery).res.ended = false ∧
    (kaIntervalMs = 25000 ∧
    (step (initSession emptyQuery) (BridgeEvent.tick 25000)).res.wire =
      (initSession emptyQuery).res.wire ++ [pingFrame 25000] ∧
    pingFrame 25000 = ": ping " ++ toString 25000 ++ "\n\n" ∧
    (step (step (initSession emptyQuery) BridgeEvent.reqClose) (BridgeEvent.tick 50000)).res.wire =
      (step (initSession emptyQuery) BridgeEvent.reqClose).res.wire ∧
    (step (initSession emptyQuery) BridgeEvent.reqClose).kaActive = false) :=
  ⟨rfl, rfl, keepalive_cadence_and_silence (initSession emptyQuery) 25000 50000 rfl rfl⟩

/-- C10: the `username` (resp. `password`) connection option is present iff
the `user` (resp. `pass`) query parameter is a non-empty string, and the
empty string produces exactly the same option object as omitting the
parameter — the connection is attempted anonymously either way. -/
theorem credential_options_truthiness (q : Query) (r : String) :
    mkOpts (resolve { q with user := some "" }) r = mkOpts (resolve { q with user := none }) r ∧
    mkOpts (resolve { q with pass := some "" }) r = mkOpts (resolve { q with pass := none }) r ∧
    (mkOpts (resolve q) r).username =
      (if q.user.getD "" = "" then none else some (q.user.getD "")) ∧
    (mkOpts (resolve q) r).password =
      (if q.pass.getD "" = "" then none else some (q.pass.getD "")) :=
  ⟨rfl, rfl, rfl, rfl⟩

end StreamBridge
